import Mathlib

/-!
Verification development for the imagefap-dl downloader.

The definitions below are a shallow embedding of the TypeScript sources:

* URL classification from src/lib/utils/URLHelper.ts
  (URLHelper.getTargetTypeByURL);
* page fetching with retry from src/lib/utils/Fetcher.ts (Fetcher.fetchHTML);
* image download with atomic commit from src/lib/utils/Fetcher.ts
  (Fetcher.downloadImage);
* the traversal orchestrator from src/lib/ImageFapDownloader.ts
  (process, getGalleryFolder, getFavoritesFolder, getGallery, downloadImage,
  start).

JavaScript strings become Lean String (regular-expression tests over
pathnames are expanded into explicit list matching, with the dot of a
regular expression modelled as matching any character - pathnames contain
no newline), numbers become Nat, thrown exceptions become Except, and the
mutable per-run statistics record is threaded through explicitly.
-/

namespace ImagefapDL

/-! ## URL classification (src/lib/utils/URLHelper.ts) -/

/-- The DownloadTargetType union from src/lib/ImageFapDownloader.ts. -/
inductive DownloadTargetType
  | userGalleries
  | galleryFolder
  | gallery
  | photo
  | favorites
  | favoritesFolder
deriving DecidableEq, Repr

/-- The result of the JavaScript URL constructor on a URL string, restricted
to the components read by getTargetTypeByURL: host, pathname, and the names
of the query parameters (searchParams.has only tests name membership). -/
structure ParsedURL where
  host : String
  pathname : String
  searchParams : List String
deriving DecidableEq, Repr

/-- Model of urlObj.searchParams.has(name). -/
def ParsedURL.hasParam (u : ParsedURL) (name : String) : Bool :=
  u.searchParams.contains name

/-- Does the character sequence needle occur contiguously inside hay?
(Exists s t, hay = s ++ needle ++ t.) -/
def containsSeq (needle : List Char) : List Char → Bool
  | [] => needle.isEmpty
  | c :: rest => needle.isPrefixOf (c :: rest) || containsSeq needle rest

/-- Match of a regular expression of the form an-anchor, a literal pre,
a dot-plus group, then a literal post: p matches iff
p = pre ++ mid ++ post ++ tail with mid nonempty. -/
def matchPreMidPost (pre post p : List Char) : Bool :=
  pre.isPrefixOf p &&
    (match p.drop pre.length with
     | [] => false
     | _ :: rest => containsSeq post rest)

/-- Match of a regular expression of the form an-anchor, a literal pre,
then a dot-plus group reaching the end: p matches iff p strictly
extends pre. -/
def startsWithPlus (pre p : List Char) : Bool :=
  pre.isPrefixOf p && decide (pre.length < p.length)

/-- userGalleriesPathnameRegex from URLHelper.ts:
slash profile slash, dot-plus, slash galleries. -/
def userGalleriesPathnameMatch (p : List Char) : Bool :=
  matchPreMidPost ("/profile/".toList) ("/galleries".toList) p

/-- galleryFolderPathnameRegex from URLHelper.ts:
slash organizer slash, dot-plus, slash. -/
def galleryFolderPathnameMatch (p : List Char) : Bool :=
  matchPreMidPost ("/organizer/".toList) ("/".toList) p

/-- galleryPathnameRegex from URLHelper.ts: three alternatives over the
pictures and gallery path forms. -/
def galleryPathnameMatch (p : List Char) : Bool :=
  matchPreMidPost ("/pictures/".toList) ("/".toList) p ||
    startsWithPlus ("/pictures/".toList) p ||
    startsWithPlus ("/gallery/".toList) p

/-- photoPathnameRegex from URLHelper.ts: two alternatives over the photo
path forms. -/
def photoPathnameMatch (p : List Char) : Bool :=
  matchPreMidPost ("/photo/".toList) ("/".toList) p ||
    startsWithPlus ("/photo/".toList) p

/-- URLHelper.getTargetTypeByURL (src/lib/utils/URLHelper.ts, lines 32-83),
over an already-parsed URL (the URL-constructor failure case is outside this
embedding; every ParsedURL represents a string the constructor accepted).
Thrown errors become Except.error with the thrown message. -/
def getTargetTypeByURL (u : ParsedURL) : Except String DownloadTargetType :=
  if ¬ (u.host = "imagefap.com" ∨ u.host = "www.imagefap.com") then
    .error "Invalid URL: hostname does not match imagefap.com"
  else if u.pathname = "/" then
    .error "Invalid URL: no pathname"
  else if userGalleriesPathnameMatch u.pathname.toList then
    if u.hasParam "folderid" then .ok .galleryFolder else .ok .userGalleries
  else if galleryFolderPathnameMatch u.pathname.toList ||
      (u.pathname = "/usergallery.php" && u.hasParam "userid" && u.hasParam "folderid") then
    .ok .galleryFolder
  else if galleryPathnameMatch u.pathname.toList ||
      (u.pathname = "/gallery.php" && u.hasParam "gid") then
    .ok .gallery
  else if photoPathnameMatch u.pathname.toList then
    .ok .photo
  else if u.pathname = "/showfavorites.php" && u.hasParam "userid" then
    if u.hasParam "folderid" then .ok .favoritesFolder else .ok .favorites
  else
    .error "Could not determine operation type by URL"

/-- A user-galleries pathname is never the bare root pathname. -/
theorem userGalleriesPathnameMatch_ne_root {p : String}
    (h : userGalleriesPathnameMatch p.toList = true) : p ≠ "/" := by
  intro hp
  subst hp
  exact absurd h (by decide)

/-- C1: a URL on the known host whose pathname matches the user-galleries
pattern classifies as galleryFolder when a folderid query parameter is
present and as userGalleries otherwise; in particular it is never
classified userGalleries when folderid is present. -/
theorem getTargetTypeByURL_userGalleries (u : ParsedURL)
    (hhost : u.host = "imagefap.com" ∨ u.host = "www.imagefap.com")
    (hmatch : userGalleriesPathnameMatch u.pathname.toList = true) :
    getTargetTypeByURL u =
      .ok (if u.hasParam "folderid" then DownloadTargetType.galleryFolder
           else DownloadTargetType.userGalleries) ∧
    (u.hasParam "folderid" = true → getTargetTypeByURL u ≠ .ok .userGalleries) := by
  have hroot : ¬ (u.pathname = "/") := userGalleriesPathnameMatch_ne_root hmatch
  have h1 : getTargetTypeByURL u =
      (if u.hasParam "folderid" then .ok .galleryFolder else .ok .userGalleries) := by
    unfold getTargetTypeByURL
    rw [if_neg (by simp [hhost]), if_neg hroot, if_pos hmatch]
  constructor
  · rw [h1]
    by_cases hf : u.hasParam "folderid" <;> simp [hf]
  · intro hf
    rw [h1, if_pos hf]
    simp

/-- C1 witness: a concrete user-galleries URL with a folderid parameter. -/
theorem getTargetTypeByURL_userGalleries_witness :
    (("www.imagefap.com" : String) = "imagefap.com" ∨
      ("www.imagefap.com" : String) = "www.imagefap.com") ∧
    userGalleriesPathnameMatch ("/profile/bob/galleries".toList) = true ∧
    (getTargetTypeByURL ⟨"www.imagefap.com", "/profile/bob/galleries", ["folderid"]⟩ =
        .ok (if ParsedURL.hasParam ⟨"www.imagefap.com", "/profile/bob/galleries", ["folderid"]⟩ "folderid"
             then DownloadTargetType.galleryFolder else DownloadTargetType.userGalleries) ∧
      (ParsedURL.hasParam ⟨"www.imagefap.com", "/profile/bob/galleries", ["folderid"]⟩ "folderid" = true →
        getTargetTypeByURL ⟨"www.imagefap.com", "/profile/bob/galleries", ["folderid"]⟩ ≠
          .ok .userGalleries)) :=
  ⟨Or.inr rfl, by decide,
    getTargetTypeByURL_userGalleries ⟨"www.imagefap.com", "/profile/bob/galleries", ["folderid"]⟩
      (Or.inr rfl) (by decide)⟩

/-! ## Page fetching with retry (src/lib/utils/Fetcher.ts, fetchHTML) -/

/-- A header list; request.headers.set replaces any existing header of the
same name and appends the new pair. -/
def setHeader (hs : List (String × String)) (n v : String) : List (String × String) :=
  hs.filter (fun h => h.1 != n) ++ [(n, v)]

/-- The USER_AGENT constant from Fetcher.ts. -/
def USER_AGENT : String :=
  "Mozilla/5.0 (Windows NT 10.0; Win64; x64) AppleWebKit/537.36 (KHTML, like Gecko) Chrome/119.0.0.0 Safari/537.36 Edg/119.0.0.0"

/-- Fetcher setHeaders: sets User-Agent, then Cookie when the session cookie
is non-null. -/
def fetcherSetHeaders (cookie : Option String) (hs : List (String × String)) :
    List (String × String) :=
  match cookie with
  | some c => setHeader (setHeader hs "User-Agent" USER_AGENT) "Cookie" c
  | none => setHeader hs "User-Agent" USER_AGENT

/-- Headers attached to one fetchHTML attempt: the caller headers argument
(absent on retries) with User-Agent and Cookie set on top. -/
def attemptHeaders (cookie : Option String) (headers : Option (List (String × String)))
    : List (String × String) :=
  fetcherSetHeaders cookie (headers.getD [])

/-- What the network does on one fetch attempt (indexed by attempt number):
either a response (with the final URL pathname after redirects and the
body), or a thrown error, recorded with whether the abort signal was
observed aborted at catch time and whether the error was a FetcherError
with its fatal flag set. -/
inductive AttemptResult
  | response (finalPathname : String) (html : String)
  | thrown (aborted : Bool) (fatalFetcherError : Bool)
deriving DecidableEq, Repr

/-- The observable outcome of fetchHTML: the html on success, or the raised
error. fatalError is a FetcherError with fatal set (the anti-automation
challenge); abortError is a non-fatal error rethrown because the signal was
aborted; escalated is the fresh non-fatal FetcherError thrown after the
retry budget is exhausted, carrying the number of retries performed. -/
inductive FetchResult
  | ok (html : String)
  | fatalError
  | abortError
  | escalated (retried : Nat)
deriving DecidableEq, Repr

/-- Fetcher.fetchHTML (src/lib/utils/Fetcher.ts, lines 57-93). The pair
(maxRetries, rt) of the source is carried as rt together with the remaining
budget maxRetries - rt, so the source guard rt < maxRetries becomes
budget > 0. Returns the outcome together with the trace of header lists
sent, one entry per attempt (so the number of attempts is the trace
length). The recursive call passes no headers argument, exactly as in the
source. -/
def fetchHTMLGo (net : Nat → AttemptResult) (cookie : Option String)
    (headers : Option (List (String × String))) (rt budget : Nat) :
    FetchResult × List (List (String × String)) :=
  let sent := attemptHeaders cookie headers
  match net rt with
  | .response finalPathname html =>
    if finalPathname = "/human-verification" then
      (.fatalError, [sent])
    else
      (.ok html, [sent])
  | .thrown aborted fatal =>
    if aborted || fatal then
      (if fatal then .fatalError else .abortError, [sent])
    else
      match budget with
      | 0 => (.escalated rt, [sent])
      | b + 1 =>
        let r := fetchHTMLGo net cookie none (rt + 1) b
        (r.1, sent :: r.2)

/-- Fetcher.fetchHTML as called by clients: rt starts at 0, so the budget
is the full maxRetries. -/
def fetchHTML (net : Nat → AttemptResult) (cookie : Option String)
    (maxRetries : Nat) (headers : Option (List (String × String))) :
    FetchResult × List (List (String × String)) :=
  fetchHTMLGo net cookie headers 0 maxRetries

/-- If every attempt throws a non-fatal error with no abort, fetchHTMLGo
consumes the whole budget and escalates: one initial attempt plus budget
retries, the retries all sent without the caller headers. -/
theorem fetchHTMLGo_allFail (net : Nat → AttemptResult) (cookie : Option String)
    (h : ∀ i, net i = .thrown false false) :
    ∀ budget rt headers,
      fetchHTMLGo net cookie headers rt budget =
        (.escalated (rt + budget),
          attemptHeaders cookie headers :: List.replicate budget (attemptHeaders cookie none)) := by
  intro budget
  induction budget with
  | zero =>
    intro rt headers
    rw [fetchHTMLGo, h rt]
    simp
  | succ b ih =>
    intro rt headers
    rw [fetchHTMLGo, h rt]
    simp only [Bool.or_self, if_neg (by simp : ¬ (false || false) = true)]
    rw [ih (rt + 1) none]
    simp [List.replicate_succ]
    omega

/-- The trace of header lists sent by fetchHTMLGo is the first attempt's
headers followed by some number of retry header lists, each built without
the caller headers argument. -/
theorem fetchHTMLGo_trace_shape (net : Nat → AttemptResult) (cookie : Option String) :
    ∀ budget rt headers, ∃ n,
      (fetchHTMLGo net cookie headers rt budget).2 =
        attemptHeaders cookie headers :: List.replicate n (attemptHeaders cookie none) := by
  intro budget
  induction budget with
  | zero =>
    intro rt headers
    refine ⟨0, ?_⟩
    rw [fetchHTMLGo]
    rcases hnet : net rt with ⟨fp, html⟩ | ⟨ab, fat⟩
    · by_cases hc : fp = "/human-verification" <;> simp [hc]
    · by_cases hab : (ab || fat) = true <;> simp [hab]
  | succ b ih =>
    intro rt headers
    rw [fetchHTMLGo]
    rcases hnet : net rt with ⟨fp, html⟩ | ⟨ab, fat⟩
    · exact ⟨0, by by_cases hc : fp = "/human-verification" <;> simp [hc]⟩
    · by_cases hab : (ab || fat) = true
      · exact ⟨0, by simp [hab]⟩
      · obtain ⟨n, hn⟩ := ih (rt + 1) none
        refine ⟨n + 1, ?_⟩
        simp only [Bool.not_eq_true] at hab
        simp [hab, hn, List.replicate_succ]

/-- C2: an anti-automation challenge response is raised as a Fatal error on
the very attempt that observed it, with exactly one attempt made regardless
of the remaining retry budget; a thrown error that is fatal (or observed
after abort) is likewise never retried; every other failure is retried
until the budget is exhausted and then escalated as a non-fatal error,
after maxRetries + 1 total attempts. -/
theorem fetchHTML_fatal_classification (net : Nat → AttemptResult)
    (cookie : Option String) (headers : Option (List (String × String)))
    (rt budget maxRetries : Nat) :
    (∀ html, net rt = .response "/human-verification" html →
      fetchHTMLGo net cookie headers rt budget =
        (.fatalError, [attemptHeaders cookie headers])) ∧
    (∀ aborted, net rt = .thrown aborted true →
      fetchHTMLGo net cookie headers rt budget =
        (.fatalError, [attemptHeaders cookie headers])) ∧
    ((∀ i, net i = .thrown false false) →
      (fetchHTML net cookie maxRetries headers).1 = .escalated maxRetries ∧
      (fetchHTML net cookie maxRetries headers).2.length = maxRetries + 1) := by
  refine ⟨?_, ?_, ?_⟩
  · intro html hnet
    cases budget <;> (rw [fetchHTMLGo, hnet]; simp)
  · intro aborted hnet
    cases budget <;> (rw [fetchHTMLGo, hnet]; simp)
  · intro hall
    unfold fetchHTML
    rw [fetchHTMLGo_allFail net cookie hall maxRetries 0 headers]
    simp

/-- C2 witness: a network that always serves the challenge page aborts
fatally after one attempt even with budget 5; a network that always fails
non-fatally with maxRetries 2 escalates after 3 attempts. -/
theorem fetchHTML_fatal_classification_witness :
    (fetchHTMLGo (fun _ => .response "/human-verification" "x") none none 0 5 =
      (.fatalError, [attemptHeaders none none])) ∧
    ((fetchHTML (fun _ => .thrown false false) none 2 none).1 = .escalated 2 ∧
      (fetchHTML (fun _ => .thrown false false) none 2 none).2.length = 2 + 1) :=
  ⟨(fetchHTML_fatal_classification (fun _ => .response "/human-verification" "x")
      none none 0 5 0).1 "x" rfl,
    (fetchHTML_fatal_classification (fun _ => .thrown false false)
      none none 0 0 2).2.2 (fun _ => rfl)⟩

/-- The headers of a retry attempt contain only the User-Agent and, when a
session cookie exists, the Cookie header. -/
theorem attemptHeaders_none_names (cookie : Option String) :
    ∀ p ∈ attemptHeaders cookie none, p.1 = "User-Agent" ∨ p.1 = "Cookie" := by
  rcases cookie with _ | c
  · intro p hp
    simp only [attemptHeaders, fetcherSetHeaders, setHeader, Option.getD] at hp
    simp at hp
    simp [hp]
  · intro p hp
    simp only [attemptHeaders, fetcherSetHeaders, setHeader, Option.getD] at hp
    simp at hp
    rcases hp with h | h <;> simp [h]

/-- C10: every retry attempt (index at least 1 in the attempt trace) is
issued without the caller-supplied headers argument: its header list is
exactly the one built from no caller headers, which carries only the
User-Agent and session-cookie headers - so, in particular, retried fetches
of the image-navigation sub-resource lack the Content-Type and Referer
headers the first attempt sent. -/
theorem fetchHTML_retry_drops_headers (net : Nat → AttemptResult)
    (cookie : Option String) (maxRetries : Nat)
    (headers : Option (List (String × String))) (i : Nat)
    (h' : List (String × String))
    (hget : (fetchHTML net cookie maxRetries headers).2.get? (i + 1) = some h') :
    h' = attemptHeaders cookie none ∧
      ∀ p ∈ h', p.1 = "User-Agent" ∨ p.1 = "Cookie" := by
  obtain ⟨n, hn⟩ := fetchHTMLGo_trace_shape net cookie maxRetries 0 headers
  unfold fetchHTML at hget
  rw [hn] at hget
  simp only [List.get?_cons_succ] at hget
  have hi : i < n := by
    by_contra hcon
    rw [List.get?_eq_none.mpr (by simpa using Nat.le_of_not_lt hcon)] at hget
    exact Option.noConfusion hget
  rw [List.get?_eq_get (by simpa using hi)] at hget
  have := List.get_replicate (attemptHeaders cookie none)
    (⟨i, by simpa using hi⟩ : Fin (List.replicate n (attemptHeaders cookie none)).length)
  rw [this] at hget
  have heq : h' = attemptHeaders cookie none := by
    exact (Option.some.injEq _ _ ▸ hget).symm
  exact ⟨heq, heq ▸ attemptHeaders_none_names cookie⟩

/-- C10 witness: with the image-navigation headers of getGallery
(Content-Type and Referer) supplied on the first attempt and a network that
always fails non-fatally, the second attempt's headers are only User-Agent
and Cookie. -/
theorem fetchHTML_retry_drops_headers_witness :
    ((fetchHTML (fun _ => .thrown false false) (some "sess") 1
        (some [("Content-Type", "application/x-www-form-urlencoded"), ("Referer", "r")])).2.get? 1 =
      some (attemptHeaders (some "sess") none)) ∧
    (attemptHeaders (some "sess") none = attemptHeaders (some "sess") none ∧
      ∀ p ∈ attemptHeaders (some "sess") none, p.1 = "User-Agent" ∨ p.1 = "Cookie") :=
  ⟨by decide,
    fetchHTML_retry_drops_headers (fun _ => .thrown false false) (some "sess") 1
      (some [("Content-Type", "application/x-www-form-urlencoded"), ("Referer", "r")]) 0
      (attemptHeaders (some "sess") none) (by decide)⟩

/-! ## Image download with atomic commit (src/lib/utils/Fetcher.ts, downloadImage) -/

/-- A filesystem: a map from path to file content. -/
def FileSystem : Type := String → Option String

/-- Write (create or overwrite) a file. -/
def fsWrite (fs : FileSystem) (p c : String) : FileSystem :=
  fun q => if q = p then some c else fs q

/-- fs.unlinkSync. -/
def fsDelete (fs : FileSystem) (p : String) : FileSystem :=
  fun q => if q = p then none else fs q

/-- fs.existsSync. -/
def fsExists (fs : FileSystem) (p : String) : Bool :=
  (fs p).isSome

/-- fs.renameSync: move the content of src to dest. -/
def renameFile (fs : FileSystem) (src dest : String) : FileSystem :=
  match fs src with
  | some c => fsDelete (fsWrite fs dest c) src
  | none => fs

/-- Fetcher cleanupDownload: delete the temporary file when it exists
(unlink errors are swallowed by its own catch). -/
def cleanupDownload (fs : FileSystem) (p : String) : FileSystem :=
  if fsExists fs p then fsDelete fs p else fs

/-- What the network returns for one image request, as seen by
downloadImage: no response, a non-ok status (assertResponseOK throws with
the status message), an ok response with no body, or an ok response with a
body - whose streaming to disk may fail partway (truncated is what reached
the disk before the failure) and whose final rename may fail. -/
inductive ImageResponse
  | noResponse
  | notOk (msg : String)
  | noBody
  | okBody (content truncated : String) (streamFails renameFails : Bool)
deriving DecidableEq, Repr

/-- Fetcher.downloadImage (src/lib/utils/Fetcher.ts, lines 95-143).
The temporary path is destPath + ".part" (path.parse splits destPath into
directory and base and the base plus ".part" is resolved back inside the
same directory). The result carries the raised error (if any) alongside
the final filesystem:

* assertResponseOK throws before any file is touched;
* the body is streamed (piped) only to the temporary path;
* on pipeline failure the catch runs cleanupDownload and rethrows;
* on success commitDownload renames the temporary file onto destPath, its
  finally block then finding (and so not deleting) no temporary file;
* on rename failure the finally block cleans up, and the outer catch
  cleans up again and rethrows. -/
def downloadImage (fs : FileSystem) (dest : String) (resp : ImageResponse) :
    Except String Unit × FileSystem :=
  let tmpFilePath := dest ++ ".part"
  match resp with
  | .noResponse => (.error "No response", fs)
  | .notOk msg => (.error msg, fs)
  | .noBody => (.error "Empty response body", fs)
  | .okBody content truncated streamFails renameFails =>
    if streamFails then
      (.error "pipeline error", cleanupDownload (fsWrite fs tmpFilePath truncated) tmpFilePath)
    else
      let fs1 := fsWrite fs tmpFilePath content
      if renameFails then
        (.error "rename error", cleanupDownload (cleanupDownload fs1 tmpFilePath) tmpFilePath)
      else
        (.ok (), cleanupDownload (renameFile fs1 tmpFilePath dest) tmpFilePath)

/-- Deleting a just-written file restores a filesystem in which that path
was absent. -/
theorem cleanupDownload_fsWrite (fs : FileSystem) (p c : String)
    (h : fs p = none) : cleanupDownload (fsWrite fs p c) p = fs := by
  funext q
  by_cases hq : q = p <;> simp [cleanupDownload, fsExists, fsWrite, fsDelete, hq, h]

/-- C6: Fetcher.downloadImage streams only to destPath + ".part"; on
success the temporary file is renamed onto destPath and the call returns
ok; on any failure the partial file is deleted and the error re-raised. So
when no ".part" file pre-exists, after the call no ".part" file remains,
no path other than destPath and the temporary path is ever touched, a
failing call leaves the filesystem exactly as it was, and a successful
call leaves the complete body at destPath. -/
theorem downloadImage_atomic (fs : FileSystem) (dest : String) (resp : ImageResponse)
    (hclean : fs (dest ++ ".part") = none) :
    ((downloadImage fs dest resp).2 (dest ++ ".part") = none) ∧
    (∀ q, q ≠ dest → q ≠ dest ++ ".part" → (downloadImage fs dest resp).2 q = fs q) ∧
    (∀ content truncated,
      resp = .okBody content truncated false false →
        (downloadImage fs dest resp).1 = .ok () ∧
        (downloadImage fs dest resp).2 dest = some content) ∧
    ((downloadImage fs dest resp).1 ≠ .ok () → (downloadImage fs dest resp).2 = fs) := by
  have hne : dest ≠ dest ++ ".part" := by
    intro h
    have := congrArg String.length h
    simp [String.length_append] at this
    exact absurd this (by decide)
  rcases resp with _ | msg | _ | ⟨content, truncated, streamFails, renameFails⟩
  · exact ⟨hclean, fun q _ _ => rfl, fun c t h => by simp at h, fun _ => rfl⟩
  · exact ⟨hclean, fun q _ _ => rfl, fun c t h => by simp at h, fun _ => rfl⟩
  · exact ⟨hclean, fun q _ _ => rfl, fun c t h => by simp at h, fun _ => rfl⟩
  · cases streamFails
    · cases renameFails
      · -- full success: stream, rename, cleanup finds nothing
        have hren : renameFile (fsWrite fs (dest ++ ".part") content) (dest ++ ".part") dest =
            fsDelete (fsWrite (fsWrite fs (dest ++ ".part") content) dest content) (dest ++ ".part") := by
          simp [renameFile, fsWrite]
        refine ⟨?_, ?_, ?_, ?_⟩
        · simp [downloadImage, hren, cleanupDownload, fsExists, fsDelete]
        · intro q hq1 hq2
          simp [downloadImage, hren, cleanupDownload, fsExists, fsDelete, fsWrite, hq1, hq2]
        · intro c t h
          simp only [ImageResponse.okBody.injEq] at h
          obtain ⟨rfl, rfl, -, -⟩ := h
          constructor
          · simp [downloadImage]
          · simp [downloadImage, hren, cleanupDownload, fsExists, fsDelete, fsWrite, hne]
        · intro h
          exact absurd (by simp [downloadImage]) h
      · -- rename failure: double cleanup, error
        have h1 : cleanupDownload (fsWrite fs (dest ++ ".part") content) (dest ++ ".part") = fs :=
          cleanupDownload_fsWrite fs (dest ++ ".part") content hclean
        have h2 : cleanupDownload fs (dest ++ ".part") = fs := by
          simp [cleanupDownload, fsExists, hclean]
        refine ⟨?_, ?_, ?_, ?_⟩
        · simp [downloadImage, h1, h2, hclean]
        · intro q hq1 hq2
          simp [downloadImage, h1, h2]
        · intro c t h
          simp at h
        · intro _
          simp [downloadImage, h1, h2]
    · -- stream failure: cleanup of the truncated file, error
      refine ⟨?_, ?_, ?_, ?_⟩
      · simp [downloadImage, cleanupDownload_fsWrite fs (dest ++ ".part") truncated hclean, hclean]
      · intro q hq1 hq2
        simp [downloadImage, cleanupDownload_fsWrite fs (dest ++ ".part") truncated hclean]
      · intro c t h
        simp at h
      · intro _
        simp [downloadImage, cleanupDownload_fsWrite fs (dest ++ ".part") truncated hclean]

/-- C6 witness: a successful download of body "c" onto an empty filesystem
leaves "c" at the destination and no temporary file. -/
theorem downloadImage_atomic_witness :
    ((fun _ => none : FileSystem) ("d" ++ ".part") = none) ∧
    ((downloadImage (fun _ => none) "d" (.okBody "c" "t" false false)).2 ("d" ++ ".part") = none ∧
      (downloadImage (fun _ => none) "d" (.okBody "c" "t" false false)).1 = .ok () ∧
      (downloadImage (fun _ => none) "d" (.okBody "c" "t" false false)).2 "d" = some "c") :=
  ⟨rfl,
    (downloadImage_atomic (fun _ => none) "d" (.okBody "c" "t" false false) rfl).1,
    ((downloadImage_atomic (fun _ => none) "d" (.okBody "c" "t" false false) rfl).2.2.1
      "c" "t" rfl).1,
    ((downloadImage_atomic (fun _ => none) "d" (.okBody "c" "t" false false) rfl).2.2.1
      "c" "t" rfl).2⟩

/-! ## Entities (src/lib/entities) and run statistics -/

/-- User (src/lib/entities/User.ts; per the data model: id, username,
profile URL). -/
structure User where
  id : Nat
  username : String
  profileURL : String
deriving DecidableEq, Repr

/-- Image (src/lib/entities/Image.ts). -/
structure Image where
  id : Nat
  title : Option String := none
  src : String
  views : Option Nat := none
  dimension : Option String := none
  dateAdded : Option String := none
  rating : Option Nat := none
deriving DecidableEq, Repr

/-- ImageLink (src/lib/entities/Image.ts). -/
structure ImageLink where
  id : Nat
  url : String
  title : Option String := none
  fullTitle : Option String := none
deriving DecidableEq, Repr

/-- GalleryLink (src/lib/entities/Gallery.ts). -/
structure GalleryLink where
  url : String
  id : Nat
  title : String
deriving DecidableEq, Repr

/-- GalleryFolder (src/lib/entities/GalleryFolder.ts). -/
structure GalleryFolder where
  url : String
  id : Option Nat := none
  owner : Option User := none
  title : Option String := none
  galleryLinks : List GalleryLink := []
deriving DecidableEq, Repr

/-- FavoritesFolder (src/lib/entities/GalleryFolder.ts): a GalleryFolder
plus an images list. -/
structure FavoritesFolder extends GalleryFolder where
  images : List Image := []
deriving DecidableEq, Repr

/-- An entry of skippedPasswordProtectedFolderURLs
(src/lib/ImageFapDownloader.ts, lines 44-47). -/
structure SkippedFolderEntry where
  url : String
  referrer : Option String := none
deriving DecidableEq, Repr

/-- DownloadStats (src/lib/ImageFapDownloader.ts, lines 42-51). -/
structure DownloadStats where
  processedGalleryCount : Nat
  skippedPasswordProtectedFolderURLs : List SkippedFolderEntry
  skippedExistingImageCount : Nat
  downloadedImageCount : Nat
  errorCount : Nat
deriving DecidableEq, Repr

/-- getEmptyStats (src/lib/ImageFapDownloader.ts, lines 137-145). -/
def getEmptyStats : DownloadStats :=
  { processedGalleryCount := 0
    skippedPasswordProtectedFolderURLs := []
    skippedExistingImageCount := 0
    downloadedImageCount := 0
    errorCount := 0 }

/-- updateStatsOnError (src/lib/ImageFapDownloader.ts, lines 168-172):
increments errorCount unless the error is the LimiterStopOnError sentinel
produced when a rate limiter is stopped. -/
def updateStatsOnError (limiterStop : Bool) (stats : DownloadStats) : DownloadStats :=
  if limiterStop then stats
  else { stats with errorCount := stats.errorCount + 1 }

/-! ## Combining per-target statistics (src/lib/ImageFapDownloader.ts, start) -/

/-- The combined run record built in start. Its skipped-folder field starts
as the empty array, but each merge assigns the object spread of the current
field and the per-target array; in JavaScript spreading arrays inside an
object literal yields a plain object keyed by array index (the length
property of an array is not enumerable and is lost), so the field is
modelled as a partial map from index to entry. -/
structure CombinedStats where
  processedGalleryCount : Nat
  skippedPasswordProtectedFolderURLs : Nat → Option SkippedFolderEntry
  skippedExistingImageCount : Nat
  downloadedImageCount : Nat
  errorCount : Nat

/-- combinedStats as initialized at the top of start. -/
def emptyCombinedStats : CombinedStats :=
  { processedGalleryCount := 0
    skippedPasswordProtectedFolderURLs := fun _ => none
    skippedExistingImageCount := 0
    downloadedImageCount := 0
    errorCount := 0 }

/-- The object spread of the current combined field and a per-target
array: each index present in the array overrides the same key of the
object. -/
def spreadMergeSkipped (c : Nat → Option SkippedFolderEntry)
    (s : List SkippedFolderEntry) : Nat → Option SkippedFolderEntry :=
  fun i =>
    match s.get? i with
    | some e => some e
    | none => c i

/-- The per-URL finally block of start (src/lib/ImageFapDownloader.ts,
lines 96-107): the four counters are added; the skipped-folder field is
replaced by the object spread. -/
def mergeCombinedStats (c : CombinedStats) (s : DownloadStats) : CombinedStats :=
  { processedGalleryCount := c.processedGalleryCount + s.processedGalleryCount
    skippedPasswordProtectedFolderURLs :=
      spreadMergeSkipped c.skippedPasswordProtectedFolderURLs
        s.skippedPasswordProtectedFolderURLs
    skippedExistingImageCount := c.skippedExistingImageCount + s.skippedExistingImageCount
    downloadedImageCount := c.downloadedImageCount + s.downloadedImageCount
    errorCount := c.errorCount + s.errorCount }

/-- C8: at the failing input - two targets, each contributing one
password-protected folder entry - the numeric counters do merge by
addition, but the combined skipped-folder collection is not the union of
the per-target collections: the second target's entry overwrites the first
target's entry at index 0, and the first target's entry appears at no
index of the combined record. -/
theorem mergeCombinedStats_drops_first_entry :
    (mergeCombinedStats (mergeCombinedStats emptyCombinedStats
        ⟨1, [⟨"https://www.imagefap.com/f1", none⟩], 2, 3, 4⟩)
        ⟨10, [⟨"https://www.imagefap.com/f2", none⟩], 20, 30, 40⟩).processedGalleryCount = 11 ∧
    (mergeCombinedStats (mergeCombinedStats emptyCombinedStats
        ⟨1, [⟨"https://www.imagefap.com/f1", none⟩], 2, 3, 4⟩)
        ⟨10, [⟨"https://www.imagefap.com/f2", none⟩], 20, 30, 40⟩).skippedExistingImageCount = 22 ∧
    (mergeCombinedStats (mergeCombinedStats emptyCombinedStats
        ⟨1, [⟨"https://www.imagefap.com/f1", none⟩], 2, 3, 4⟩)
        ⟨10, [⟨"https://www.imagefap.com/f2", none⟩], 20, 30, 40⟩).downloadedImageCount = 33 ∧
    (mergeCombinedStats (mergeCombinedStats emptyCombinedStats
        ⟨1, [⟨"https://www.imagefap.com/f1", none⟩], 2, 3, 4⟩)
        ⟨10, [⟨"https://www.imagefap.com/f2", none⟩], 20, 30, 40⟩).errorCount = 44 ∧
    (mergeCombinedStats (mergeCombinedStats emptyCombinedStats
        ⟨1, [⟨"https://www.imagefap.com/f1", none⟩], 2, 3, 4⟩)
        ⟨10, [⟨"https://www.imagefap.com/f2", none⟩], 20, 30, 40⟩).skippedPasswordProtectedFolderURLs 0 =
      some ⟨"https://www.imagefap.com/f2", none⟩ ∧
    ∀ i, (mergeCombinedStats (mergeCombinedStats emptyCombinedStats
        ⟨1, [⟨"https://www.imagefap.com/f1", none⟩], 2, 3, 4⟩)
        ⟨10, [⟨"https://www.imagefap.com/f2", none⟩], 20, 30, 40⟩).skippedPasswordProtectedFolderURLs i ≠
      some ⟨"https://www.imagefap.com/f1", none⟩ := by
  refine ⟨rfl, rfl, rfl, rfl, rfl, ?_⟩
  intro i
  match i with
  | 0 => simp [mergeCombinedStats, spreadMergeSkipped, emptyCombinedStats]
  | 1 => simp [mergeCombinedStats, spreadMergeSkipped, emptyCombinedStats]
  | (n + 2) => simp [mergeCombinedStats, spreadMergeSkipped, emptyCombinedStats]

/-! ## Image filename composition (src/lib/ImageFapDownloader.ts, downloadImage) -/

/-- The part of a path after its last slash (the base of Node path.parse,
for inputs without a trailing slash). -/
def lastSegment (s : List Char) : List Char :=
  s.foldl (fun acc c => if c = '/' then [] else acc ++ [c]) []

/-- The index of the last dot of a base name, as used by Node path.parse
to split base into name and ext (a dot at index 0 marks a dotfile, not an
extension). -/
def lastDotIdx (l : List Char) : Option Nat :=
  ((List.range l.length).filter fun i => l.getD i ' ' = '.').getLast?

/-- Node path.parse(s).ext (for inputs without a trailing slash). -/
def parseExt (s : String) : String :=
  let base := lastSegment s.toList
  match lastDotIdx base with
  | some i => if i = 0 then "" else String.mk (base.drop i)
  | none => ""

/-- Node path.parse(s).name (for inputs without a trailing slash). -/
def parseNameStr (s : String) : String :=
  let base := lastSegment s.toList
  match lastDotIdx base with
  | some i => if i = 0 then String.mk base else String.mk (base.take i)
  | none => String.mk base

/-- The filename computed by the downloader downloadImage
(src/lib/ImageFapDownloader.ts, lines 582-592). sanitize is the external
sanitize-filename collaborator (out of scope per the spec), kept abstract;
srcPathname is the pathname of the URL constructed from image.src. -/
def downloadImageFilename (sanitize : String → String) (seqFilenames : Bool)
    (srcPathname : String) (title : Option String) (id : Nat) (index : Nat) : String :=
  let ext := parseExt srcPathname
  let pfx := if seqFilenames then toString index ++ " - " else ""
  match title with
  | some t => sanitize (pfx ++ parseNameStr t ++ " (" ++ toString id ++ ")" ++ ext)
  | none => sanitize (pfx ++ toString id ++ ext)

/-- The filename formula asserted by the claim: optional sequence prefix,
then the base name (title when known, else the id), then the
parenthesized id in both cases, then the extension from the source URL
path. -/
def claimedImageFilename (sanitize : String → String) (seqFilenames : Bool)
    (srcPathname : String) (title : Option String) (id : Nat) (index : Nat) : String :=
  let ext := parseExt srcPathname
  let pfx := if seqFilenames then toString index ++ " - " else ""
  let base := match title with
    | some t => t
    | none => toString id
  sanitize (pfx ++ base ++ " (" ++ toString id ++ ")" ++ ext)

/-- C7 counterexample: for an untitled image the code does not append the
parenthesized id: image id 123 with source path "/x/photo.jpg" is written
as "123.jpg", while the claimed formula yields "123 (123).jpg". -/
theorem downloadImageFilename_untitled_no_id_suffix :
    downloadImageFilename (fun s => s) false "/x/photo.jpg" none 123 0 = "123.jpg" ∧
    claimedImageFilename (fun s => s) false "/x/photo.jpg" none 123 0 = "123 (123).jpg" ∧
    downloadImageFilename (fun s => s) false "/x/photo.jpg" none 123 0 ≠
      claimedImageFilename (fun s => s) false "/x/photo.jpg" none 123 0 := by
  refine ⟨?_, ?_, ?_⟩ <;> decide

/-- C7 amended: the filename is the optional sequence prefix, then - for a
titled image - the title with its extension stripped followed by the
parenthesized id, or - for an untitled image - just the id with no
parenthesized suffix, then the extension from the source URL path, the
whole passed through the sanitizer. -/
theorem downloadImageFilename_formula (sanitize : String → String)
    (seqFilenames : Bool) (srcPathname : String) (title : Option String)
    (id : Nat) (index : Nat) :
    downloadImageFilename sanitize seqFilenames srcPathname title id index =
      sanitize ((if seqFilenames then toString index ++ " - " else "") ++
        (match title with
         | some t => parseNameStr t ++ " (" ++ toString id ++ ")"
         | none => toString id) ++
        parseExt srcPathname) := by
  rcases title with _ | t
  · rfl
  · show sanitize _ = sanitize _
    congr 1
    simp [String.append_assoc]

/-! ## The gallery case of process (src/lib/ImageFapDownloader.ts, lines 271-314) -/

/-- The outcome of one downloader downloadImage call for one image: the
destination already exists with overwrite disabled (skip), the download
succeeds, or it fails - recorded with whether the failure is
non-continuable (abort or fatal, rethrown) and whether it is the
LimiterStopOnError sentinel. -/
inductive ImageOutcome
  | skippedExisting
  | downloaded
  | failed (nonContinuable limiterStop : Bool)
deriving DecidableEq, Repr

/-- The statistics effect of the downloader downloadImage
(src/lib/ImageFapDownloader.ts, lines 582-617), abstracted over the
outcome of the existence check and the fetch. -/
def downloadImageStep (o : ImageOutcome) (stats : DownloadStats) :
    Except Unit DownloadStats :=
  match o with
  | .skippedExisting =>
    .ok { stats with skippedExistingImageCount := stats.skippedExistingImageCount + 1 }
  | .downloaded =>
    .ok { stats with downloadedImageCount := stats.downloadedImageCount + 1 }
  | .failed nonContinuable limiterStop =>
    if nonContinuable then .error ()
    else .ok (updateStatsOnError limiterStop stats)

/-- The image fan-out of the gallery case: Promise.all over the gallery's
images. All scheduling is single-threaded, so the statistics updates are
modelled as the sequential fold of the per-image effects; only a
non-continuable failure rejects the whole fan-out. -/
def downloadImagesAll (os : List ImageOutcome) (stats : DownloadStats) :
    Except Unit DownloadStats :=
  match os with
  | [] => .ok stats
  | o :: rest =>
    match downloadImageStep o stats with
    | .error e => .error e
    | .ok s => downloadImagesAll rest s

/-- What the gallery case of process observes for one gallery URL:
either getGallery succeeded (with the download outcome of each of the
gallery's images, in order), or it threw, recorded with the
non-continuable flag of the error (a first-listing-page parse failure
arrives here as a continuable error, before any counter was touched). -/
inductive GalleryCaseInput
  | fetched (images : List ImageOutcome)
  | fetchFailed (nonContinuable : Bool)
deriving DecidableEq, Repr

/-- The gallery case of process (src/lib/ImageFapDownloader.ts, lines
271-314): a non-continuable getGallery error is rethrown; a continuable
one is logged and the case returns with the statistics untouched; on
success the image fan-out runs and then processedGalleryCount is
incremented. -/
def processGalleryCase (inp : GalleryCaseInput) (stats : DownloadStats) :
    Except Unit DownloadStats :=
  match inp with
  | .fetchFailed nonContinuable =>
    if nonContinuable then .error () else .ok stats
  | .fetched os =>
    match downloadImagesAll os stats with
    | .error e => .error e
    | .ok s => .ok { s with processedGalleryCount := s.processedGalleryCount + 1 }

/-- The sequential sibling loop over gallery targets (the galleryLinks
loop of the folder cases of process). -/
def processGalleries (is : List GalleryCaseInput) (stats : DownloadStats) :
    Except Unit DownloadStats :=
  match is with
  | [] => .ok stats
  | i :: rest =>
    match processGalleryCase i stats with
    | .error e => .error e
    | .ok s => processGalleries rest s

/-- An image outcome that neither throws nor logs an error. -/
def ImageOutcome.isOk : ImageOutcome → Bool
  | .skippedExisting => true
  | .downloaded => true
  | .failed _ _ => false

/-- A gallery that is fetched and whose every image download succeeds. -/
def GalleryCaseInput.succeeds : GalleryCaseInput → Bool
  | .fetched os => os.all ImageOutcome.isOk
  | .fetchFailed _ => false

/-- A fan-out of successful image outcomes completes and touches neither
processedGalleryCount nor errorCount. -/
theorem downloadImagesAll_ok (os : List ImageOutcome) :
    ∀ stats : DownloadStats, os.all ImageOutcome.isOk = true →
      ∃ s, downloadImagesAll os stats = .ok s ∧
        s.processedGalleryCount = stats.processedGalleryCount ∧
        s.errorCount = stats.errorCount := by
  induction os with
  | nil => exact fun stats _ => ⟨stats, rfl, rfl, rfl⟩
  | cons o rest ih =>
    intro stats hall
    simp only [List.all_cons, Bool.and_eq_true] at hall
    rcases o with _ | _ | ⟨nc, ls⟩
    · obtain ⟨s, hs, h1, h2⟩ :=
        ih { stats with skippedExistingImageCount := stats.skippedExistingImageCount + 1 } hall.2
      refine ⟨s, ?_, by simpa using h1, by simpa using h2⟩
      simpa [downloadImagesAll, downloadImageStep] using hs
    · obtain ⟨s, hs, h1, h2⟩ :=
        ih { stats with downloadedImageCount := stats.downloadedImageCount + 1 } hall.2
      refine ⟨s, ?_, by simpa using h1, by simpa using h2⟩
      simpa [downloadImagesAll, downloadImageStep] using hs
    · simp [ImageOutcome.isOk] at hall

/-- A sequence of fully succeeding galleries completes, bumps
processedGalleryCount once per gallery, and leaves errorCount alone. -/
theorem processGalleries_all_ok (is : List GalleryCaseInput) :
    ∀ stats : DownloadStats, (∀ i ∈ is, i.succeeds = true) →
      ∃ s, processGalleries is stats = .ok s ∧
        s.processedGalleryCount = stats.processedGalleryCount + is.length ∧
        s.errorCount = stats.errorCount := by
  induction is with
  | nil => exact fun stats _ => ⟨stats, rfl, rfl, rfl⟩
  | cons i rest ih =>
    intro stats hall
    have hi := hall i (List.mem_cons_self i rest)
    have hrest : ∀ j ∈ rest, j.succeeds = true :=
      fun j hj => hall j (List.mem_cons_of_mem i hj)
    rcases i with os | nc
    · simp only [GalleryCaseInput.succeeds] at hi
      obtain ⟨s1, hs1, hp1, he1⟩ := downloadImagesAll_ok os stats hi
      obtain ⟨s2, hs2, hp2, he2⟩ :=
        ih { s1 with processedGalleryCount := s1.processedGalleryCount + 1 } hrest
      refine ⟨s2, ?_, ?_, ?_⟩
      · simp only [processGalleries, processGalleryCase, hs1]
        exact hs2
      · simp only [List.length_cons]
        simp at hp2
        omega
      · simp at he2
        omega
    · simp [GalleryCaseInput.succeeds] at hi

/-- Splitting the sibling loop at an element. -/
theorem processGalleries_append (xs ys : List GalleryCaseInput) :
    ∀ stats : DownloadStats,
      processGalleries (xs ++ ys) stats =
        match processGalleries xs stats with
        | .error e => .error e
        | .ok s => processGalleries ys s := by
  induction xs with
  | nil => intro stats; rfl
  | cons x rest ih =>
    intro stats
    simp only [List.cons_append, processGalleries]
    rcases hx : processGalleryCase x stats with e | s
    · rfl
    · exact ih _

/-- C3 (amended): in a run over K galleries where exactly one fails with a
continuable error (such as a ParseFailure on its first listing page) and
every other gallery fully succeeds, the run completes with
processedGalleryCount = K - 1 and errorCount = 0 - the failing gallery is
caught at its own boundary, does not abort its siblings, and does not
increment errorCount, because the gallery-case catch block only logs and
returns. -/
theorem processGalleries_one_failure (a b : List GalleryCaseInput)
    (ha : ∀ i ∈ a, i.succeeds = true) (hb : ∀ i ∈ b, i.succeeds = true) :
    ∃ s, processGalleries (a ++ .fetchFailed false :: b) getEmptyStats = .ok s ∧
      s.processedGalleryCount =
        (a ++ GalleryCaseInput.fetchFailed false :: b).length - 1 ∧
      s.errorCount = 0 := by
  obtain ⟨s1, hs1, hp1, he1⟩ := processGalleries_all_ok a getEmptyStats ha
  obtain ⟨s2, hs2, hp2, he2⟩ := processGalleries_all_ok b s1 hb
  refine ⟨s2, ?_, ?_, ?_⟩
  · rw [processGalleries_append a (.fetchFailed false :: b) getEmptyStats, hs1]
    simpa [processGalleries, processGalleryCase] using hs2
  · have : s1.processedGalleryCount = a.length := by
      simpa [getEmptyStats] using hp1
    simp [hp2, this, List.length_append]
  · rw [he2, he1]
    rfl

/-- C3 witness: two succeeding galleries of one image each around one
failing gallery. -/
theorem processGalleries_one_failure_witness :
    ((∀ i ∈ ([.fetched [.downloaded]] : List GalleryCaseInput), i.succeeds = true) ∧
      (∀ i ∈ ([.fetched [.skippedExisting]] : List GalleryCaseInput), i.succeeds = true)) ∧
    (∃ s, processGalleries
        ([.fetched [.downloaded]] ++ .fetchFailed false :: [.fetched [.skippedExisting]])
        getEmptyStats = .ok s ∧
      s.processedGalleryCount =
        (([.fetched [.downloaded]] : List GalleryCaseInput) ++
          GalleryCaseInput.fetchFailed false :: [.fetched [.skippedExisting]]).length - 1 ∧
      s.errorCount = 0) :=
  ⟨⟨by decide, by decide⟩,
    processGalleries_one_failure [.fetched [.downloaded]] [.fetched [.skippedExisting]]
      (by decide) (by decide)⟩

/-- C3 counterexample: with K = 2 galleries - one downloading its single
image successfully and one failing with a continuable ParseFailure - the
run ends with processedGalleryCount = 1 = K - 1 but errorCount = 0, not at
least 1 as claimed. -/
theorem processGalleries_one_failure_errorCount_zero :
    processGalleries [.fetched [.downloaded], .fetchFailed false] getEmptyStats =
      .ok { processedGalleryCount := 1
            skippedPasswordProtectedFolderURLs := []
            skippedExistingImageCount := 0
            downloadedImageCount := 1
            errorCount := 0 } ∧
    ¬ (1 ≤ (0 : Nat)) := by
  exact ⟨rfl, by decide⟩

/-! ## Folder pagination (src/lib/ImageFapDownloader.ts, getGalleryFolder
and getFavoritesFolder, lines 342-415) -/

/-- GalleryFolderLink (src/lib/entities/GalleryFolder.ts). -/
structure GalleryFolderLink where
  url : String
  id : Nat
  title : String
  selected : Bool
deriving DecidableEq, Repr

/-- What one iteration of getGalleryFolder observes for one page URL:
either the parsed page - the folder link data, the owner, the gallery
links, and whether a nextURL is present (in which case the following list
element is the page that nextURL resolves to) - or a thrown fetch/parse
error with its non-continuable and limiter-stop properties. -/
inductive FolderPageResult
  | ok (folder : Option GalleryFolderLink) (owner : Option User)
      (galleryLinks : List GalleryLink) (next : Bool)
  | err (nonContinuable limiterStop : Bool)
deriving DecidableEq, Repr

/-- The gallery folder aggregate initialized from the first page: the url
is folder.url when present and non-empty (JavaScript or-else on a
string), else the fetched url. -/
def initGalleryFolder (url : String) (folder : Option GalleryFolderLink)
    (owner : Option User) (galleryLinks : List GalleryLink) : GalleryFolder :=
  { url := match folder with
      | some f => if f.url = "" then url else f.url
      | none => url
    id := folder.map (fun f => f.id)
    title := folder.map (fun f => f.title)
    owner := owner
    galleryLinks := galleryLinks }

/-- getGalleryFolder (src/lib/ImageFapDownloader.ts, lines 342-374): the
list holds the chain of page results this traversal observes, one per
fetch; recursion follows nextURL exactly when the page reported one. A
thrown page error propagates when it is non-continuable or no aggregate
exists yet (first page); otherwise it is logged, counted through
updateStatsOnError, and pagination stops with the aggregate kept. -/
def getGalleryFolder :
    List FolderPageResult → String → Option GalleryFolder → DownloadStats →
      Except Unit (Option GalleryFolder × DownloadStats)
  | [], _, current, stats => .ok (current, stats)
  | .ok folder owner galleryLinks next :: rest, url, current, stats =>
    let current' := match current with
      | none => initGalleryFolder url folder owner galleryLinks
      | some c => { c with galleryLinks := c.galleryLinks ++ galleryLinks }
    if next then getGalleryFolder rest url (some current') stats
    else .ok (some current', stats)
  | .err nonContinuable limiterStop :: _, _, current, stats =>
    if nonContinuable || current.isNone then .error ()
    else .ok (current, updateStatsOnError limiterStop stats)

/-- What one iteration of getFavoritesFolder observes for one page URL.
galleryLinks and images mirror the optional fields of
parseFavoritesFolderPage; an images value of some l means the page had an
imageLinks field whose links resolved (through getImagesByLink, nulls
filtered) to l. -/
inductive FavPageResult
  | ok (folder : Option GalleryFolderLink) (owner : Option User)
      (galleryLinks : Option (List GalleryLink)) (images : Option (List Image))
      (next : Bool)
  | err (nonContinuable limiterStop : Bool)
deriving DecidableEq, Repr

/-- getFavoritesFolder (src/lib/ImageFapDownloader.ts, lines 376-415).
The first page initializes the aggregate (absent optional lists default to
empty); a continuation page appends its gallery links and images exactly
when the corresponding parsed field was present (appending the empty
default when absent is equivalent). Error handling is as in
getGalleryFolder. -/
def getFavoritesFolder :
    List FavPageResult → String → Option FavoritesFolder → DownloadStats →
      Except Unit (Option FavoritesFolder × DownloadStats)
  | [], _, current, stats => .ok (current, stats)
  | .ok folder owner galleryLinks images next :: rest, url, current, stats =>
    let current' := match current with
      | none =>
        { toGalleryFolder := initGalleryFolder url folder owner (galleryLinks.getD [])
          images := images.getD [] }
      | some c =>
        { c with
            galleryLinks := c.galleryLinks ++ galleryLinks.getD []
            images := c.images ++ images.getD [] }
    if next then getFavoritesFolder rest url (some current') stats
    else .ok (some current', stats)
  | .err nonContinuable limiterStop :: _, _, current, stats =>
    if nonContinuable || current.isNone then .error ()
    else .ok (current, updateStatsOnError limiterStop stats)

/-- An ok page result carrying a next pointer. -/
def FolderPageResult.isOkNext : FolderPageResult → Bool
  | .ok _ _ _ true => true
  | _ => false

/-- The gallery links contributed by a page result. -/
def FolderPageResult.linksOf : FolderPageResult → List GalleryLink
  | .ok _ _ l _ => l
  | .err _ _ => []

/-- An ok favorites page result carrying a next pointer. -/
def FavPageResult.isOkNext : FavPageResult → Bool
  | .ok _ _ _ _ true => true
  | _ => false

/-- The gallery links contributed by a favorites page result. -/
def FavPageResult.linksOf : FavPageResult → List GalleryLink
  | .ok _ _ l _ _ => l.getD []
  | .err _ _ => []

/-- The images contributed by a favorites page result. -/
def FavPageResult.imagesOf : FavPageResult → List Image
  | .ok _ _ _ i _ => i.getD []
  | .err _ _ => []

/-- With an aggregate already present, a run of ok continuation pages
followed by a continuable error appends all their links, adds one to
errorCount, and stops pagination, whatever pages would have followed. -/
theorem getGalleryFolder_cont_err (okPages : List FolderPageResult) :
    ∀ (c : GalleryFolder) (url : String) (stats : DownloadStats)
      (more : List FolderPageResult),
      (∀ p ∈ okPages, p.isOkNext = true) →
      getGalleryFolder (okPages ++ .err false false :: more) url (some c) stats =
        .ok (some { c with galleryLinks :=
              c.galleryLinks ++ (okPages.map FolderPageResult.linksOf).join },
          { stats with errorCount := stats.errorCount + 1 }) := by
  induction okPages with
  | nil =>
    intro c url stats more _
    simp [getGalleryFolder, updateStatsOnError]
  | cons p ps ih =>
    intro c url stats more hall
    have hp := hall p (List.mem_cons_self p ps)
    rcases p with ⟨folder, owner, links, next⟩ | ⟨nc, ls⟩
    · cases next
      · simp [FolderPageResult.isOkNext] at hp
      · simp only [List.cons_append, getGalleryFolder]
        rw [if_pos trivial]
        simp only [List.append_eq]
        rw [ih { c with galleryLinks := c.galleryLinks ++ links } url stats more
          (fun q hq => hall q (List.mem_cons_of_mem _ hq))]
        simp [FolderPageResult.linksOf, List.append_assoc]
    · simp [FolderPageResult.isOkNext] at hp

/-- As getGalleryFolder_cont_err, for getFavoritesFolder: links and images
are both kept. -/
theorem getFavoritesFolder_cont_err (okPages : List FavPageResult) :
    ∀ (c : FavoritesFolder) (url : String) (stats : DownloadStats)
      (more : List FavPageResult),
      (∀ p ∈ okPages, p.isOkNext = true) →
      getFavoritesFolder (okPages ++ .err false false :: more) url (some c) stats =
        .ok (some { c with
              galleryLinks := c.galleryLinks ++ (okPages.map FavPageResult.linksOf).join
              images := c.images ++ (okPages.map FavPageResult.imagesOf).join },
          { stats with errorCount := stats.errorCount + 1 }) := by
  induction okPages with
  | nil =>
    intro c url stats more _
    simp [getFavoritesFolder, updateStatsOnError]
  | cons p ps ih =>
    intro c url stats more hall
    have hp := hall p (List.mem_cons_self p ps)
    rcases p with ⟨folder, owner, links, images, next⟩ | ⟨nc, ls⟩
    · cases next
      · simp [FavPageResult.isOkNext] at hp
      · simp only [List.cons_append, getFavoritesFolder]
        rw [if_pos trivial]
        simp only [List.append_eq]
        rw [ih { c with
            galleryLinks := c.galleryLinks ++ links.getD []
            images := c.images ++ images.getD [] } url stats more
          (fun q hq => hall q (List.mem_cons_of_mem _ hq))]
        simp [FavPageResult.linksOf, FavPageResult.imagesOf, List.append_assoc]
    · simp [FavPageResult.isOkNext] at hp

/-- C4: for both multi-page folder aggregations - gallery folders and
favorites folders - an error on the first page (no aggregate yet)
propagates to the caller whatever its flags; while a continuable
fetch/parse error on a continuation page is caught: errorCount is
incremented by exactly one, every item accumulated so far is kept in the
returned aggregate, and pagination of the folder stops there regardless
of any pages that would have followed. -/
theorem folderPagination_error_handling (url : String) (stats : DownloadStats) :
    (∀ (nc ls : Bool) (rest : List FolderPageResult),
      getGalleryFolder (.err nc ls :: rest) url none stats = .error ()) ∧
    (∀ (nc ls : Bool) (rest : List FavPageResult),
      getFavoritesFolder (.err nc ls :: rest) url none stats = .error ()) ∧
    (∀ (first : FolderPageResult) (ps more : List FolderPageResult),
      first.isOkNext = true → (∀ p ∈ ps, p.isOkNext = true) →
      ∃ agg : GalleryFolder,
        getGalleryFolder (first :: ps ++ .err false false :: more) url none stats =
          .ok (some agg, { stats with errorCount := stats.errorCount + 1 }) ∧
        agg.galleryLinks = ((first :: ps).map FolderPageResult.linksOf).join) ∧
    (∀ (first : FavPageResult) (ps more : List FavPageResult),
      first.isOkNext = true → (∀ p ∈ ps, p.isOkNext = true) →
      ∃ agg : FavoritesFolder,
        getFavoritesFolder (first :: ps ++ .err false false :: more) url none stats =
          .ok (some agg, { stats with errorCount := stats.errorCount + 1 }) ∧
        agg.galleryLinks = ((first :: ps).map FavPageResult.linksOf).join ∧
        agg.images = ((first :: ps).map FavPageResult.imagesOf).join) := by
  refine ⟨?_, ?_, ?_, ?_⟩
  · intro nc ls rest
    simp [getGalleryFolder]
  · intro nc ls rest
    simp [getFavoritesFolder]
  · intro first ps more hfirst hall
    rcases first with ⟨folder, owner, links, next⟩ | ⟨nc, ls⟩
    · cases next
      · simp [FolderPageResult.isOkNext] at hfirst
      · refine ⟨{ initGalleryFolder url folder owner links with
            galleryLinks := links ++ (ps.map FolderPageResult.linksOf).join }, ?_, ?_⟩
        · simp only [List.cons_append, getGalleryFolder]
          rw [if_pos trivial]
          simp only [List.append_eq]
          rw [getGalleryFolder_cont_err ps (initGalleryFolder url folder owner links)
            url stats more hall]
          simp [initGalleryFolder]
        · simp [FolderPageResult.linksOf]
    · simp [FolderPageResult.isOkNext] at hfirst
  · intro first ps more hfirst hall
    rcases first with ⟨folder, owner, links, images, next⟩ | ⟨nc, ls⟩
    · cases next
      · simp [FavPageResult.isOkNext] at hfirst
      · refine ⟨{ toGalleryFolder := { initGalleryFolder url folder owner (links.getD []) with galleryLinks := links.getD [] ++ (ps.map FavPageResult.linksOf).join }, images := images.getD [] ++ (ps.map FavPageResult.imagesOf).join }, ?_, ?_, ?_⟩
        · simp only [List.cons_append, getFavoritesFolder]
          rw [if_pos trivial]
          simp only [List.append_eq]
          rw [getFavoritesFolder_cont_err ps
            { toGalleryFolder := initGalleryFolder url folder owner (links.getD [])
              images := images.getD [] } url stats more hall]
          rfl
        · simp [FavPageResult.linksOf, initGalleryFolder]
        · simp [FavPageResult.imagesOf, initGalleryFolder]
    · simp [FavPageResult.isOkNext] at hfirst

/-- C4 witness: a first page with one gallery link and a next pointer
followed by a continuation-page error keeps the link and counts one
error; an error on the first page propagates. -/
theorem folderPagination_error_handling_witness :
    (getGalleryFolder [.err false false] "u" none getEmptyStats = .error ()) ∧
    ((FolderPageResult.ok none none [⟨"g1", 1, "t1"⟩] true).isOkNext = true ∧
      ∃ agg : GalleryFolder,
        getGalleryFolder ((FolderPageResult.ok none none [⟨"g1", 1, "t1"⟩] true) :: [] ++
            .err false false :: []) "u" none getEmptyStats =
          .ok (some agg, { getEmptyStats with errorCount := getEmptyStats.errorCount + 1 }) ∧
        agg.galleryLinks =
          (([FolderPageResult.ok none none [⟨"g1", 1, "t1"⟩] true]).map
            FolderPageResult.linksOf).join) :=
  ⟨(folderPagination_error_handling "u" getEmptyStats).1 false false [],
    by decide,
    (folderPagination_error_handling "u" getEmptyStats).2.2.1
      (FolderPageResult.ok none none [⟨"g1", 1, "t1"⟩] true) [] [] (by decide)
      (by intro p hp; simp at hp)⟩

/-! ## Gallery phase 2: the image-navigation loop
(src/lib/ImageFapDownloader.ts, getGallery, lines 417-457) -/

/-- The non-null entries of a parseImageNav batch, in order (the reduce
that pushes only non-null images). -/
def parsedOf (l : List (Option Image)) : List Image :=
  l.filterMap (fun i => i)

/-- The id of the last successfully parsed image of a batch, as read by
the loop guard: parsedImages.at(-1)?.id, with 0 standing for the falsy
values (no parsed image, or a parsed id of 0 - JavaScript truthiness). -/
def lastParsedId (l : List (Option Image)) : Nat :=
  (((parsedOf l).getLast?).map Image.id).getD 0

/-- The book-keeping of the phase-2 loop: the images accumulated, the
number of null placeholders counted as parse errors, and the referrer
image id used for each image-navigation fetch, one per batch in order. -/
structure Phase2Result where
  images : List Image
  parseErrors : Nat
  referrers : List Nat
deriving DecidableEq, Repr

/-- The while loop of getGallery phase 2 (src/lib/ImageFapDownloader.ts,
lines 428-457), with the server's batches given by nav, indexed by batch
ordinal. The loop state mirrors the source: referrerImageID, navIdx and
totalNavImageCount (which counts every returned entry, nulls included).
The loop continues exactly when the batch is non-empty, the updated
totalNavImageCount is still below the phase-1 link count, and the last
parsed image id is truthy; it then re-anchors the referrer to that id. -/
def phase2Loop (nav : Nat → List (Option Image))
    (linkCount batch referrerImageID navIdx totalNavImageCount : Nat) : Phase2Result :=
  if h : 0 < (nav batch).length ∧
      totalNavImageCount + (nav batch).length < linkCount ∧
      lastParsedId (nav batch) ≠ 0 then
    let r := phase2Loop nav linkCount (batch + 1) (lastParsedId (nav batch))
      (navIdx + (nav batch).length) (totalNavImageCount + (nav batch).length)
    { images := parsedOf (nav batch) ++ r.images
      parseErrors := ((nav batch).length - (parsedOf (nav batch)).length) + r.parseErrors
      referrers := referrerImageID :: r.referrers }
  else
    { images := parsedOf (nav batch)
      parseErrors := (nav batch).length - (parsedOf (nav batch)).length
      referrers := [referrerImageID] }
termination_by linkCount - totalNavImageCount
decreasing_by
  obtain ⟨h1, h2, -⟩ := h
  omega

/-- Phase 2 of getGallery: no fetch at all when phase 1 produced no image
links; otherwise the loop starts at batch 0, anchored to the first image
link's id, with navIdx and totalNavImageCount at 0. -/
def getGalleryPhase2 (nav : Nat → List (Option Image))
    (imageLinks : List ImageLink) : Phase2Result :=
  match imageLinks with
  | [] => { images := [], parseErrors := 0, referrers := [] }
  | l :: _ => phase2Loop nav imageLinks.length 0 l.id 0 0

/-- The entries returned across the batches batch, batch+1, ...,
batch+m-1, nulls included. -/
def sumNavLen (nav : Nat → List (Option Image)) (batch : Nat) : Nat → Nat
  | 0 => 0
  | m + 1 => sumNavLen nav batch m + (nav (batch + m)).length

/-- Splitting the entry count at the first batch. -/
theorem sumNavLen_shift (nav : Nat → List (Option Image)) (batch : Nat) :
    ∀ m, sumNavLen nav batch (m + 1) =
      (nav batch).length + sumNavLen nav (batch + 1) m := by
  intro m
  induction m with
  | zero => simp [sumNavLen]
  | succ m ih =>
    show sumNavLen nav batch (m + 1) + (nav (batch + (m + 1))).length = _
    rw [ih, sumNavLen]
    have : batch + (m + 1) = (batch + 1) + m := by omega
    rw [this]
    omega

/-- One unfolding of the loop, on the referrer trace, when the guard
holds. -/
theorem phase2Loop_referrers_step (nav : Nat → List (Option Image))
    (linkCount batch ref navIdx total : Nat)
    (h : 0 < (nav batch).length ∧ total + (nav batch).length < linkCount ∧
      lastParsedId (nav batch) ≠ 0) :
    (phase2Loop nav linkCount batch ref navIdx total).referrers =
      ref :: (phase2Loop nav linkCount (batch + 1) (lastParsedId (nav batch))
        (navIdx + (nav batch).length) (total + (nav batch).length)).referrers := by
  conv_lhs => unfold phase2Loop
  rw [dif_pos h]

/-- One unfolding of the loop, on the referrer trace, when the guard
fails. -/
theorem phase2Loop_referrers_stop (nav : Nat → List (Option Image))
    (linkCount batch ref navIdx total : Nat)
    (h : ¬ (0 < (nav batch).length ∧ total + (nav batch).length < linkCount ∧
      lastParsedId (nav batch) ≠ 0)) :
    (phase2Loop nav linkCount batch ref navIdx total).referrers = [ref] := by
  conv_lhs => unfold phase2Loop
  rw [dif_neg h]

/-- The loop emits its own referrer first. -/
theorem phase2Loop_referrers_cons (nav : Nat → List (Option Image))
    (linkCount batch ref navIdx total : Nat) :
    ∃ tl, (phase2Loop nav linkCount batch ref navIdx total).referrers = ref :: tl := by
  by_cases h : 0 < (nav batch).length ∧ total + (nav batch).length < linkCount ∧
      lastParsedId (nav batch) ≠ 0
  · exact ⟨_, phase2Loop_referrers_step nav linkCount batch ref navIdx total h⟩
  · exact ⟨[], phase2Loop_referrers_stop nav linkCount batch ref navIdx total h⟩

/-- Batch-indexed characterization of the loop: a fetch number k+1 happens
exactly when fetch k happened, batch k was non-empty, the cumulative
returned-entry count (nulls included) through batch k is still below the
link count, and batch k's last parsed image id is non-zero; and the
referrer of fetch k+1 is exactly that last parsed id. -/
theorem phase2Loop_referrers_spec (nav : Nat → List (Option Image)) (linkCount : Nat) :
    ∀ (k batch ref navIdx total : Nat),
      ((phase2Loop nav linkCount batch ref navIdx total).referrers.get? (k + 1) ≠ none ↔
        ((phase2Loop nav linkCount batch ref navIdx total).referrers.get? k ≠ none ∧
          nav (batch + k) ≠ [] ∧
          total + sumNavLen nav batch (k + 1) < linkCount ∧
          lastParsedId (nav (batch + k)) ≠ 0)) ∧
      (∀ v, (phase2Loop nav linkCount batch ref navIdx total).referrers.get? (k + 1) = some v →
        v = lastParsedId (nav (batch + k))) := by
  intro k
  induction k with
  | zero =>
    intro batch ref navIdx total
    by_cases h : 0 < (nav batch).length ∧ total + (nav batch).length < linkCount ∧
        lastParsedId (nav batch) ≠ 0
    · rw [phase2Loop_referrers_step nav linkCount batch ref navIdx total h]
      obtain ⟨tl, htl⟩ := phase2Loop_referrers_cons nav linkCount (batch + 1)
        (lastParsedId (nav batch)) (navIdx + (nav batch).length) (total + (nav batch).length)
      rw [htl]
      constructor
      · simp [sumNavLen]
        refine ⟨List.length_pos.mp h.1, h.2.1, h.2.2⟩
      · intro v hv
        simp at hv
        simp [hv]
    · rw [phase2Loop_referrers_stop nav linkCount batch ref navIdx total h]
      constructor
      · simp [sumNavLen]
        intro hne hlt
        push_neg at h
        have h1 : 0 < (nav batch).length := List.length_pos.mpr (by simpa using hne)
        exact h h1 (by omega)
      · intro v hv
        simp at hv
  | succ k ih =>
    intro batch ref navIdx total
    by_cases h : 0 < (nav batch).length ∧ total + (nav batch).length < linkCount ∧
        lastParsedId (nav batch) ≠ 0
    · rw [phase2Loop_referrers_step nav linkCount batch ref navIdx total h]
      obtain ⟨ihiff, ihval⟩ := ih (batch + 1) (lastParsedId (nav batch))
        (navIdx + (nav batch).length) (total + (nav batch).length)
      have harith : batch + (k + 1) = (batch + 1) + k := by omega
      have hsum : total + sumNavLen nav batch (k + 2) =
          (total + (nav batch).length) + sumNavLen nav (batch + 1) (k + 1) := by
        rw [sumNavLen_shift]
        omega
      constructor
      · simp only [List.get?_cons_succ]
        rw [ihiff, harith, hsum]
      · intro v hv
        simp only [List.get?_cons_succ] at hv
        rw [harith]
        exact ihval v hv
    · rw [phase2Loop_referrers_stop nav linkCount batch ref navIdx total h]
      constructor
      · simp
      · intro v hv
        simp at hv

/-- C5 (amended): in phase 2 of getGallery over a non-empty phase-1 link
list, the first image-navigation fetch is anchored to the first link's id;
fetch k+1 happens exactly when fetch k happened, batch k was non-empty,
the cumulative count of returned entries - null placeholders included, not
only successfully parsed images - is still below the phase-1 link count,
and batch k contains a successfully parsed last image with a non-zero
(truthy) id; and the referrer of fetch k+1 is re-anchored to exactly that
last successfully parsed image id of batch k. -/
theorem getGalleryPhase2_spec (nav : Nat → List (Option Image))
    (l : ImageLink) (rest : List ImageLink) :
    ((getGalleryPhase2 nav (l :: rest)).referrers.get? 0 = some l.id) ∧
    (∀ k,
      ((getGalleryPhase2 nav (l :: rest)).referrers.get? (k + 1) ≠ none ↔
        ((getGalleryPhase2 nav (l :: rest)).referrers.get? k ≠ none ∧
          nav k ≠ [] ∧
          sumNavLen nav 0 (k + 1) < (l :: rest).length ∧
          lastParsedId (nav k) ≠ 0)) ∧
      (∀ v, (getGalleryPhase2 nav (l :: rest)).referrers.get? (k + 1) = some v →
        v = lastParsedId (nav k))) := by
  constructor
  · show (phase2Loop nav (l :: rest).length 0 l.id 0 0).referrers.get? 0 = some l.id
    obtain ⟨tl, htl⟩ := phase2Loop_referrers_cons nav (l :: rest).length 0 l.id 0 0
    rw [htl]
    rfl
  · intro k
    have hspec := phase2Loop_referrers_spec nav (l :: rest).length k 0 l.id 0 0
    simpa using hspec

/-- C5 counterexample: with two phase-1 links and a first batch of two
entries - a null placeholder and one parsed image - the loop stops after a
single fetch (the total entry count, nulls included, reached the link
count), even though the first batch was non-empty and only one image -
fewer than the two claimed by the link count - was successfully parsed; the
claim's termination condition (stop only on an empty batch or when the
count of successfully parsed images reaches the link count) says the loop
should have fetched again. -/
theorem getGalleryPhase2_counts_nulls :
    (getGalleryPhase2 (fun _ => [none, some { id := 5, src := "s" }])
        [{ id := 1, url := "u1" }, { id := 2, url := "u2" }]).referrers = [1] ∧
    (fun _ => [none, some ({ id := 5, src := "s" } : Image)]) 0 ≠ [] ∧
    (parsedOf ((fun _ => [none, some ({ id := 5, src := "s" } : Image)]) 0)).length = 1 ∧
    ([{ id := 1, url := "u1" }, { id := 2, url := "u2" }] : List ImageLink).length = 2 ∧
    ¬ ((1 : Nat) = 0 ∨ 2 ≤ 1) := by
  refine ⟨?_, by simp, by simp [parsedOf], rfl, by simp⟩
  show (phase2Loop (fun _ => [none, some { id := 5, src := "s" }]) 2 0 1 0 0).referrers = [1]
  rw [phase2Loop_referrers_stop]
  simp [lastParsedId, parsedOf]

/-- C5 witness: the theorem applied to a concrete two-batch navigation -
three links, a first batch whose last parsed image has id 7 - shows the
second fetch re-anchored to referrer 7. -/
theorem getGalleryPhase2_spec_witness :
    ((getGalleryPhase2 (fun b => if b = 0 then [some { id := 7, src := "s7" }] else [])
        [{ id := 1, url := "u1" }, { id := 2, url := "u2" }, { id := 3, url := "u3" }]).referrers.get? 1 =
      some 7) ∧
    (7 : Nat) = lastParsedId ((fun b : Nat => if b = 0 then [some ({ id := 7, src := "s7" } : Image)] else []) 0) := by
  have hget : (getGalleryPhase2 (fun b => if b = 0 then [some { id := 7, src := "s7" }] else [])
      [{ id := 1, url := "u1" }, { id := 2, url := "u2" }, { id := 3, url := "u3" }]).referrers.get? 1 =
      some 7 := by
    show (phase2Loop (fun b => if b = 0 then [some { id := 7, src := "s7" }] else [])
      3 0 1 0 0).referrers.get? 1 = some 7
    rw [phase2Loop_referrers_step _ 3 0 1 0 0 (by simp [lastParsedId, parsedOf])]
    rw [phase2Loop_referrers_stop _ 3 1 _ _ _ (by simp)]
    simp [lastParsedId, parsedOf]
  refine ⟨hget, ?_⟩
  have := ((getGalleryPhase2_spec (fun b => if b = 0 then [some { id := 7, src := "s7" }] else [])
      { id := 1, url := "u1" } [{ id := 2, url := "u2" }, { id := 3, url := "u3" }]).2 0).2 7 hget
  simpa using this

/-! ## DownloadContext across sibling branches
(src/lib/ImageFapDownloader.ts, process, lines 190-268) -/

/-- DownloadContext (src/lib/ImageFapDownloader.ts, lines 21-24); both
fields optional, absent until a folder case assigns them. -/
structure DownloadContext where
  isFavorite : Option Bool := none
  galleryFolder : Option GalleryFolder := none
deriving DecidableEq, Repr

/-- A sibling target of a process loop, with the folder aggregate a folder
case would fetch for it. -/
inductive SiblingTarget
  | galleryFolderTarget (folder : GalleryFolder)
  | favoritesFolderTarget (folder : GalleryFolder)
  | galleryTarget
deriving DecidableEq, Repr

/-- The assignment a target's case applies to the context object before
recursing into its children: the galleryFolder case sets
context.galleryFolder (line 227); the favoritesFolder case sets
context.galleryFolder and context.isFavorite (lines 249-250); the gallery
case only reads the context. -/
def applyCase : SiblingTarget → DownloadContext → DownloadContext
  | .galleryFolderTarget f, ctx => { ctx with galleryFolder := some f }
  | .favoritesFolderTarget f, ctx =>
    { ctx with galleryFolder := some f, isFavorite := some true }
  | .galleryTarget, ctx => ctx

/-- The context value each sibling branch observes at entry. process
passes the one shared context object to every recursive call of its
sibling loop, so the assignments a sibling's case applied are still in
place when the next sibling starts: the value observed by sibling i+1 is
the value observed by sibling i as mutated by sibling i's case. -/
def siblingObservedContexts : List SiblingTarget → DownloadContext → List DownloadContext
  | [], _ => []
  | k :: rest, ctx => ctx :: siblingObservedContexts rest (applyCase k ctx)

/-- C9 counterexample: under a shared context that starts empty, a
galleryFolder sibling followed by a gallery sibling: the gallery sibling
observes a context whose galleryFolder is the folder set by its sibling,
not the parent's original (empty) context value - so processing one
folder does change the context value seen by a sibling branch. -/
theorem siblingObservedContexts_not_isolated :
    (siblingObservedContexts
        [.galleryFolderTarget { url := "fu", id := some 1, title := some "F" },
          .galleryTarget] {}).get? 1 =
      some { galleryFolder := some { url := "fu", id := some 1, title := some "F" } } ∧
    some ({ galleryFolder := some { url := "fu", id := some 1, title := some "F" } } : DownloadContext) ≠
      some ({} : DownloadContext) := by
  constructor
  · rfl
  · simp [DownloadContext.mk.injEq]

/-- C9 (amended): the recursive traversal passes one shared, mutated
DownloadContext object to every sibling branch: whenever sibling i is a
gallery-folder target, every later-entered sibling i+1 observes
galleryFolder set to sibling i's folder; whenever sibling i is a
favorites-folder target, sibling i+1 additionally observes isFavorite set
to true. Sibling contexts are not per-branch immutable values. -/
theorem siblingObservedContexts_mutation (ks : List SiblingTarget) :
    ∀ (ctx : DownloadContext) (i : Nat) (f : GalleryFolder),
      (ks.get? i = some (.galleryFolderTarget f) →
        ∀ v, (siblingObservedContexts ks ctx).get? (i + 1) = some v →
          v.galleryFolder = some f) ∧
      (ks.get? i = some (.favoritesFolderTarget f) →
        ∀ v, (siblingObservedContexts ks ctx).get? (i + 1) = some v →
          v.galleryFolder = some f ∧ v.isFavorite = some true) := by
  induction ks with
  | nil =>
    intro ctx i f
    constructor <;> (intro hk; simp at hk)
  | cons k rest ih =>
    intro ctx i f
    match i with
    | 0 =>
      constructor
      · intro hk v hv
        simp at hk
        subst hk
        match rest, hv with
        | r :: rs, hv =>
          simp only [siblingObservedContexts, List.get?_cons_succ, List.get?_cons_zero] at hv
          cases hv
          rfl
      · intro hk v hv
        simp at hk
        subst hk
        match rest, hv with
        | r :: rs, hv =>
          simp only [siblingObservedContexts, List.get?_cons_succ, List.get?_cons_zero] at hv
          cases hv
          exact ⟨rfl, rfl⟩
    | i + 1 =>
      have := ih (applyCase k ctx) i f
      constructor
      · intro hk v hv
        simp only [List.get?_cons_succ] at hk
        simp only [siblingObservedContexts, List.get?_cons_succ] at hv
        exact this.1 hk v hv
      · intro hk v hv
        simp only [List.get?_cons_succ] at hk
        simp only [siblingObservedContexts, List.get?_cons_succ] at hv
        exact this.2 hk v hv

/-- C9 witness: in a loop over a favorites-folder sibling then a gallery
sibling, the gallery sibling observes that folder and the favorites flag. -/
theorem siblingObservedContexts_mutation_witness :
    (([.favoritesFolderTarget { url := "fv" }, .galleryTarget] :
        List SiblingTarget).get? 0 =
      some (.favoritesFolderTarget { url := "fv" })) ∧
    ((siblingObservedContexts
        [.favoritesFolderTarget { url := "fv" }, .galleryTarget] {}).get? 1 =
      some { galleryFolder := some { url := "fv" }, isFavorite := some true }) ∧
    (({ galleryFolder := some { url := "fv" }, isFavorite := some true } :
        DownloadContext).galleryFolder = some { url := "fv" } ∧
      ({ galleryFolder := some { url := "fv" }, isFavorite := some true } :
        DownloadContext).isFavorite = some true) :=
  ⟨rfl, rfl,
    (siblingObservedContexts_mutation
        [.favoritesFolderTarget { url := "fv" }, .galleryTarget] {} 0 { url := "fv" }).2
      rfl { galleryFolder := some { url := "fv" }, isFavorite := some true } rfl⟩

end ImagefapDL
